import Mathlib

/-!
Verification of the CORD-19 metadata explorer (`app.py`).

The app is a pandas/streamlit script: it loads `metadata.csv`, cleans it
(drop rows with missing `publish_time`, fill `abstract`/`journal`
placeholders, coerce `publish_time` to datetime dropping unparseable rows,
derive `year`), then filters by a year-range slider and renders aggregates
(yearly counts, top-10 journals, a title word cloud) plus a 10-row sample.

We embed the table as a list of rows.  A missing cell is `Option.none`
(pandas `NaN`); the `publish_time` column is a `TimeCell` that is either
missing (`NaN`/`NaT`), a raw string, or a parsed datetime, mirroring the
in-place column conversion performed by `pd.to_datetime`.  Date parsing
itself is library behaviour (`pandas`), so the pipeline is parameterised
by an arbitrary parser `parse : String → Option Date`; theorems hold for
every parser, and witnesses instantiate a concrete one.
-/

namespace Cord

/-- A parsed calendar date: the calendar components of a pandas `Timestamp`. -/
structure Date where
  year : Int
  month : Nat
  day : Nat
deriving DecidableEq, Repr

/-- A cell of the `publish_time` column: missing (`NaN`/`NaT`), a raw
string as read from the CSV, or a datetime produced by `pd.to_datetime`. -/
inductive TimeCell where
  | na : TimeCell
  | str (s : String) : TimeCell
  | date (d : Date) : TimeCell
deriving DecidableEq, Repr

/-- Whether the cell is missing (`pd.isna`). -/
def TimeCell.isNA : TimeCell → Bool
  | .na => true
  | _ => false

/-- The `.dt.year` accessor: the calendar year of a datetime cell,
missing on anything else. -/
def TimeCell.yearOf : TimeCell → Option Int
  | .date d => some d.year
  | _ => none

/-- One row of the metadata table.  Fields used by the app; a `none`
models a pandas `NaN`.  The `year` column does not exist in the raw CSV
(`none` there) and is created by the cleaning pipeline. -/
structure Row where
  title : Option String
  authors : Option String
  journal : Option String
  abstract : Option String
  publish_time : TimeCell
  year : Option Int
deriving DecidableEq, Repr

/-- Model of `pd.to_datetime(·, errors='coerce')` on one cell: a missing cell stays
missing (`NaT`), a string is parsed (unparseable strings coerce to `NaT`),
an already-parsed datetime passes through. -/
def to_datetime (parse : String → Option Date) : TimeCell → TimeCell
  | .na => .na
  | .str s =>
    match parse s with
    | none => .na
    | some d => .date d
  | .date d => .date d

/-- Step `df_cleaned['abstract'] = df_cleaned['abstract'].fillna('No abstract provided.')`
(app.py line 26), acting on one row. -/
def fillna_abstract (r : Row) : Row :=
  { r with abstract := some (r.abstract.getD "No abstract provided.") }

/-- Step `df_cleaned['journal'] = df_cleaned['journal'].fillna('Unknown Journal')`
(app.py line 28), acting on one row. -/
def fillna_journal (r : Row) : Row :=
  { r with journal := some (r.journal.getD "Unknown Journal") }

/-- The cleaning body of `load_and_prepare_data` (app.py lines 24–39):
drop rows with missing `publish_time`, fill the `abstract` and `journal`
placeholders, coerce `publish_time` to datetime, drop rows whose date
failed to parse, and derive the `year` column. -/
def cleanPipeline (parse : String → Option Date) (df : List Row) : List Row :=
  let d1 := df.filter (fun r => !r.publish_time.isNA)
  let d2 := d1.map fillna_abstract
  let d3 := d2.map fillna_journal
  let d4 := d3.map (fun r => { r with publish_time := to_datetime parse r.publish_time })
  let d5 := d4.filter (fun r => !r.publish_time.isNA)
  d5.map (fun r => { r with year := r.publish_time.yearOf })

/-- Result of `load_and_prepare_data`: the returned DataFrame together
with whether the `st.error` notice was shown. -/
structure LoadResult where
  data : List Row
  errorShown : Bool
deriving DecidableEq, Repr

/-- Function `load_and_prepare_data` (app.py lines 12–39).  `source = none` models
`pd.read_csv` raising `FileNotFoundError`: the app shows an error and
returns an empty DataFrame; otherwise the read succeeds with the given
rows and the cleaning steps run. -/
def load_and_prepare_data (parse : String → Option Date) (source : Option (List Row)) :
    LoadResult :=
  match source with
  | none => { data := [], errorShown := true }
  | some df => { data := cleanPipeline parse df, errorShown := false }

/-- A raw row survives cleaning iff its `publish_time` coerces to an
actual datetime (present and parseable). -/
def survives (parse : String → Option Date) (r : Row) : Bool :=
  !(to_datetime parse r.publish_time).isNA

/-- The row-level effect of the cleaning pipeline on a surviving row:
placeholders filled, `publish_time` coerced, `year` derived. -/
def cleanOne (parse : String → Option Date) (r : Row) : Row :=
  let r1 := fillna_journal (fillna_abstract r)
  let r2 := { r1 with publish_time := to_datetime parse r1.publish_time }
  { r2 with year := r2.publish_time.yearOf }

/-- The invariant of rows produced by the cleaning pipeline. -/
def IsCleanedRow (r : Row) : Prop :=
  ∃ d : Date, r.publish_time = TimeCell.date d ∧ r.year = some d.year ∧
    r.abstract.isSome = true ∧ r.journal.isSome = true

/-- Step `df_filtered = df[(df['year'] >= year_range[0]) & (df['year'] <= year_range[1])]`
(app.py line 69).  A missing (`NaN`) year compares as false in pandas, so
such a row is not selected. -/
def df_filtered (df : List Row) (startYear endYear : Int) : List Row :=
  df.filter fun r =>
    match r.year with
    | none => false
    | some y => decide (startYear ≤ y) && decide (y ≤ endYear)

/-- The distinct values of a column in order of first appearance: the key
order of the hash table `pandas` builds while counting. -/
def firstKeys {α : Type} [DecidableEq α] : List α → List α
  | [] => []
  | x :: xs => x :: (firstKeys xs).filter fun y => y ≠ x

/-- The counting table underlying `Series.value_counts()`: one pair per
distinct value, keyed in first-appearance order, with its multiplicity. -/
def countPairs {α : Type} [DecidableEq α] (xs : List α) : List (α × Nat) :=
  (firstKeys xs).map fun k => (k, xs.count k)

/-- Count-descending order on count pairs, used by `value_counts`. -/
def cntDesc {α : Type} (p q : α × Nat) : Prop := q.2 ≤ p.2

instance {α : Type} : DecidableRel (@cntDesc α) :=
  fun p q => inferInstanceAs (Decidable (q.2 ≤ p.2))

instance {α : Type} : IsTotal (α × Nat) cntDesc :=
  ⟨fun a b => Nat.le_total b.2 a.2⟩

instance {α : Type} : IsTrans (α × Nat) cntDesc :=
  ⟨fun _ _ _ h1 h2 => le_trans h2 h1⟩

/-- Model of `Series.value_counts()`: the counts of the distinct values, sorted by
count descending; the sort is stable, so tied counts keep the
first-appearance order of their keys. -/
def value_counts {α : Type} [DecidableEq α] (xs : List α) : List (α × Nat) :=
  List.insertionSort cntDesc (countPairs xs)

/-- Key-ascending order on year/count pairs, used by `.sort_index()`. -/
def keyAsc (p q : Int × Nat) : Prop := p.1 ≤ q.1

instance : DecidableRel keyAsc :=
  fun p q => inferInstanceAs (Decidable (p.1 ≤ q.1))

instance : IsTotal (Int × Nat) keyAsc :=
  ⟨fun a b => Int.le_total a.1 b.1⟩

instance : IsTrans (Int × Nat) keyAsc :=
  ⟨fun _ _ _ h1 h2 => le_trans h1 h2⟩

/-- The `year` column of a DataFrame; `value_counts`/`min`/`max` skip
missing values, so the column is the list of present entries. -/
def yearColumn (df : List Row) : List Int :=
  df.filterMap fun r => r.year

/-- The `journal` column of a DataFrame (present entries). -/
def journalColumn (df : List Row) : List String :=
  df.filterMap fun r => r.journal

/-- The `title` column of a DataFrame: `df_filtered['title'].dropna()`. -/
def titleColumn (df : List Row) : List String :=
  df.filterMap fun r => r.title

/-- Step `year_counts = df_filtered['year'].value_counts().sort_index()`
(app.py line 83). -/
def year_counts (df : List Row) : List (Int × Nat) :=
  List.insertionSort keyAsc (value_counts (yearColumn df))

/-- Step `top_journals = df_filtered['journal'].value_counts().head(10)`
(app.py line 101). -/
def top_journals (df : List Row) : List (String × Nat) :=
  (value_counts (journalColumn df)).take 10

/-- Step `title_text = " ".join(title for title in df_filtered['title'].dropna())`
(app.py line 118). -/
def title_text (df : List Row) : String :=
  String.intercalate " " (titleColumn df)

/-- A word character (the regex class `\w`) for tokenization of titles,
as in the `wordcloud` token pattern. -/
def isWordChar (c : Char) : Bool :=
  c.isAlphanum || c = '_'

/-- Tokenization performed by `WordCloud.process_text`: maximal runs of
word characters. -/
def tokenize (text : String) : List String :=
  (text.split fun c => !isWordChar c).filter fun w => w ≠ ""

/-- The thirteen domain-specific stop words added at app.py line 122. -/
def extraStopwords : List String :=
  ["covid", "19", "2019", "study", "case", "report", "disease", "new",
    "clinical", "data", "sars", "cov", "2"]

/-- Step `custom_stopwords = set(STOPWORDS); custom_stopwords.update([...])`
(app.py lines 121–122), over an arbitrary base list standing for the
library's built-in English stop-word set `STOPWORDS`. -/
def custom_stopwords (base : List String) : List String :=
  base ++ extraStopwords

/-- Python's `str.lower()` on a token, character by character. -/
def lowerStr (s : String) : String :=
  String.mk (s.data.map Char.toLower)

/-- The frequency table `WordCloud(stopwords=...).generate(text)` computes
before layout: tokens are lowercased and any token whose lowercase form is
a (lowercased) stop word is removed; the survivors are counted. -/
def word_frequencies (stop : List String) (text : String) : List (String × Nat) :=
  let lstop := stop.map lowerStr
  let kept := ((tokenize text).map lowerStr).filter fun w => !lstop.contains w
  countPairs kept

/-- The number of occurrences a frequency table assigns to a token. -/
def freqOf (fs : List (String × Nat)) (w : String) : Nat :=
  ((fs.filter fun p => p.1 = w).map Prod.snd).sum

/-- Clamp `x` into `[lo, hi]`. -/
def clampI (lo hi x : Int) : Int := max lo (min x hi)

/-- The year-range slider (app.py lines 61–66), configured with
`min_value=min_year`, `max_value=max_year`, `value=(2020, max_year)`.
Modelled from the spec: the widget itself is streamlit library code, and
per the spec it yields the default `(2020, max_year)` when the user has
made no choice and otherwise accepts only values clamped to
`[min_year, max_year]`. -/
def slider (min_year max_year : Int) (choice : Option (Int × Int)) : Int × Int :=
  match choice with
  | none => (2020, max_year)
  | some c => (clampI min_year max_year c.1, clampI min_year max_year c.2)

/-- The columns of the sample table
`df_filtered[['title', 'authors', 'journal', 'year', 'abstract']]`
(app.py line 145). -/
structure SampleRow where
  title : Option String
  authors : Option String
  journal : Option String
  year : Option Int
  abstract : Option String
deriving DecidableEq, Repr

/-- Column selection for the sample table. -/
def sampleColumns (r : Row) : SampleRow :=
  { title := r.title, authors := r.authors, journal := r.journal,
    year := r.year, abstract := r.abstract }

/-- Everything the page renders after the slider: the status-line count,
the two chart data sets, the word-cloud frequency table (`none` when the
empty-corpus branch shows the warning instead), and the sample table. -/
structure RenderOutput where
  shownCount : Nat
  yearChart : List (Int × Nat)
  journalChart : List (String × Nat)
  cloud : Option (List (String × Nat))
  noTitlesWarning : Bool
  sample : List SampleRow
deriving DecidableEq, Repr

/-- The rendering part of the script (app.py lines 69–145): filter by the
chosen year range, then compute the three aggregates and the sample.  The
word cloud is attempted only when `title_text` is a non-empty string
(`if title_text:`); otherwise the "no titles" warning is shown. -/
def render (stopBase : List String) (df : List Row) (year_range : Int × Int) :
    RenderOutput :=
  let dff := df_filtered df year_range.1 year_range.2
  let tt := title_text dff
  { shownCount := dff.length
    yearChart := year_counts dff
    journalChart := top_journals dff
    cloud := if tt = "" then none else
      some (word_frequencies (custom_stopwords stopBase) tt)
    noTitlesWarning := tt = ""
    sample := (dff.map sampleColumns).take 10 }

/-- The terminal state of one script run: either `st.stop()` was reached
(nothing after the load is rendered) or the full page was rendered. -/
inductive Session where
  | halted : Session
  | page (out : RenderOutput) : Session
deriving DecidableEq, Repr

/-- The whole script (app.py lines 42–145): load, halt via `st.stop()` on
an empty DataFrame, otherwise derive `min_year`/`max_year`, read the
slider and render.  `int(df['year'].min())` on a column with no values
would raise, which the model signals as `none` (a crash). -/
def app_script (parse : String → Option Date) (stopBase : List String)
    (source : Option (List Row)) (choice : Option (Int × Int)) : Option Session :=
  let res := load_and_prepare_data parse source
  if res.data.isEmpty then some Session.halted
  else
    match (yearColumn res.data).min?, (yearColumn res.data).max? with
    | some mn, some mx =>
      some (Session.page (render stopBase res.data (slider mn mx choice)))
    | _, _ => none

/-- A tiny concrete date parser used only to instantiate witnesses; the
pipeline theorems hold for every parser. -/
def parseYMD (s : String) : Option Date :=
  match s with
  | "2019-01-15" => some ⟨2019, 1, 15⟩
  | "2020-05-01" => some ⟨2020, 5, 1⟩
  | "2021-07-20" => some ⟨2021, 7, 20⟩
  | _ => none

/-- Witness fixture: a raw row with a parseable date and missing
`journal`/`abstract`. -/
def wGood : Row :=
  { title := some "Viral Spread Analysis", authors := some "Doe",
    journal := none, abstract := none,
    publish_time := TimeCell.str "2020-05-01", year := none }

/-- Witness fixture: a raw row with a missing `publish_time`. -/
def wMissing : Row :=
  { title := some "No Date", authors := none, journal := some "J",
    abstract := some "A", publish_time := TimeCell.na, year := none }

/-- Witness fixture: a raw row with an unparseable `publish_time`. -/
def wBad : Row :=
  { title := some "Bad Date", authors := none, journal := some "J",
    abstract := some "A", publish_time := TimeCell.str "not-a-date", year := none }

/-- Witness fixture: the three-row raw table. -/
def wdf : List Row := [wGood, wMissing, wBad]

/-- Witness fixture: an already-cleaned row with the given year and journal. -/
def srow (y : Int) (j : String) (t : Option String) : Row :=
  { title := t, authors := some "A. Author", journal := some j,
    abstract := some "No abstract provided.",
    publish_time := TimeCell.date ⟨y, 1, 1⟩, year := some y }

/-- Witness fixture: the five-row cleaned table of the spec scenario with
years `[2019, 2020, 2020, 2021, 2021]`. -/
def scdf : List Row :=
  [srow 2019 "Lancet" (some "Early Outbreak"),
    srow 2020 "Nature" (some "Genome Sequencing"),
    srow 2020 "Lancet" (some "Vaccine Trials"),
    srow 2021 "Cell" (some "Variant Tracking"),
    srow 2021 "Nature" (some "Immunity Duration")]

theorem to_datetime_isNA_of_na (parse : String → Option Date) (t : TimeCell)
    (h : t.isNA = true) : (to_datetime parse t).isNA = true := by
  cases t <;> simp_all [TimeCell.isNA, to_datetime]

theorem to_datetime_date_of_not_na (parse : String → Option Date) (t : TimeCell)
    (h : ¬ (to_datetime parse t).isNA = true) :
    ∃ d : Date, to_datetime parse t = TimeCell.date d := by
  cases t with
  | na => simp [to_datetime, TimeCell.isNA] at h
  | str s =>
    cases hp : parse s with
    | none => simp [to_datetime, hp, TimeCell.isNA] at h
    | some d => exact ⟨d, by simp [to_datetime, hp]⟩
  | date d => exact ⟨d, rfl⟩

/-- The cleaning pipeline is the row-map `cleanOne` applied to exactly the
surviving rows, in source order. -/
theorem cleanPipeline_eq_filter_map (parse : String → Option Date) (df : List Row) :
    cleanPipeline parse df = (df.filter (survives parse)).map (cleanOne parse) := by
  unfold cleanPipeline
  dsimp only
  rw [List.map_map, List.map_map, List.filter_map, List.map_map, List.filter_filter]
  congr 1
  · refine List.filter_congr fun r _ => ?_
    cases ht : r.publish_time with
    | na =>
      simp [Function.comp, fillna_abstract, fillna_journal, ht, to_datetime,
        TimeCell.isNA, survives]
    | str s =>
      simp [Function.comp, fillna_abstract, fillna_journal, ht, TimeCell.isNA, survives]
    | date d =>
      simp [Function.comp, fillna_abstract, fillna_journal, ht, TimeCell.isNA, survives,
        to_datetime]

/-- Explicit description of `cleanOne` on a surviving row. -/
theorem cleanOne_spec (parse : String → Option Date) (r : Row)
    (h : survives parse r = true) :
    ∃ d : Date, to_datetime parse r.publish_time = TimeCell.date d ∧
      cleanOne parse r =
        { title := r.title, authors := r.authors,
          journal := some (r.journal.getD "Unknown Journal"),
          abstract := some (r.abstract.getD "No abstract provided."),
          publish_time := TimeCell.date d,
          year := some d.year } := by
  have h' : ¬ (to_datetime parse r.publish_time).isNA = true := by
    simpa [survives] using h
  obtain ⟨d, hd⟩ := to_datetime_date_of_not_na parse _ h'
  refine ⟨d, hd, ?_⟩
  simp [cleanOne, fillna_abstract, fillna_journal, hd, TimeCell.yearOf]


theorem cleanOne_isCleaned (parse : String → Option Date) (r : Row)
    (h : survives parse r = true) : IsCleanedRow (cleanOne parse r) := by
  obtain ⟨d, _, heq⟩ := cleanOne_spec parse r h
  exact ⟨d, by simp [heq]⟩

theorem mem_cleanPipeline_isCleaned (parse : String → Option Date) (df : List Row)
    (r : Row) (h : r ∈ cleanPipeline parse df) : IsCleanedRow r := by
  rw [cleanPipeline_eq_filter_map] at h
  obtain ⟨r0, hr0, rfl⟩ := List.mem_map.mp h
  exact cleanOne_isCleaned parse r0 (List.of_mem_filter hr0)

/-- An already-cleaned row survives re-cleaning and is untouched by it. -/
theorem cleanOne_fixed (parse : String → Option Date) (r : Row)
    (h : IsCleanedRow r) : survives parse r = true ∧ cleanOne parse r = r := by
  obtain ⟨d, hpt, hyr, hab, hjo⟩ := h
  obtain ⟨a, ha⟩ := Option.isSome_iff_exists.mp hab
  obtain ⟨j, hj⟩ := Option.isSome_iff_exists.mp hjo
  constructor
  · simp [survives, hpt, to_datetime, TimeCell.isNA]
  · cases r
    simp_all [cleanOne, fillna_abstract, fillna_journal, to_datetime, TimeCell.yearOf]

theorem filter_survives_cleaned (parse : String → Option Date) (df : List Row) :
    (cleanPipeline parse df).filter (survives parse) = cleanPipeline parse df :=
  List.filter_eq_self.mpr fun r hr =>
    (cleanOne_fixed parse r (mem_cleanPipeline_isCleaned parse df r hr)).1

/-- C1: every record returned by `load_and_prepare_data` on a readable source
carries a parsed calendar date whose calendar year is the `year` field, and
the output is exactly the per-row cleaning of the raw rows whose
`publish_time` is present and parseable — missing (`NaN`) and unparseable
`publish_time` values make `survives` false, so those raw rows contribute
nothing to the output. -/
theorem C1_cleaned_dates_valid_and_bad_rows_dropped
    (parse : String → Option Date) (df : List Row) :
    (load_and_prepare_data parse (some df)).data
        = (df.filter (survives parse)).map (cleanOne parse)
      ∧ (∀ r ∈ (load_and_prepare_data parse (some df)).data,
          ∃ d : Date, r.publish_time = TimeCell.date d ∧ r.year = some d.year)
      ∧ (∀ r : Row, r.publish_time = TimeCell.na → survives parse r = false)
      ∧ (∀ r : Row, ∀ s : String, r.publish_time = TimeCell.str s → parse s = none →
          survives parse r = false) := by
  refine ⟨cleanPipeline_eq_filter_map parse df, ?_, ?_, ?_⟩
  · intro r hr
    obtain ⟨d, hpt, hyr, _, _⟩ := mem_cleanPipeline_isCleaned parse df r hr
    exact ⟨d, hpt, hyr⟩
  · intro r hna
    simp [survives, hna, to_datetime, TimeCell.isNA]
  · intro r s hs hp
    simp [survives, hs, to_datetime, hp, TimeCell.isNA]

/-- C8: the cleaning steps are idempotent — running the pipeline on its own
output returns the output unchanged, record for record. -/
theorem C8_cleaning_idempotent (parse : String → Option Date) (df : List Row) :
    cleanPipeline parse (cleanPipeline parse df) = cleanPipeline parse df := by
  rw [cleanPipeline_eq_filter_map parse (cleanPipeline parse df),
    filter_survives_cleaned]
  have h : ∀ r ∈ cleanPipeline parse df, cleanOne parse r = r := fun r hr =>
    (cleanOne_fixed parse r (mem_cleanPipeline_isCleaned parse df r hr)).2
  calc (cleanPipeline parse df).map (cleanOne parse)
      = (cleanPipeline parse df).map id := List.map_congr_left h
    _ = cleanPipeline parse df := List.map_id _

/-- Witness for C1, at the concrete parser and three-row table. -/
theorem C1_witness :
    ((load_and_prepare_data parseYMD (some wdf)).data
        = (wdf.filter (survives parseYMD)).map (cleanOne parseYMD))
      ∧ (∃ d : Date, (cleanOne parseYMD wGood).publish_time = TimeCell.date d ∧
          (cleanOne parseYMD wGood).year = some d.year)
      ∧ survives parseYMD wMissing = false
      ∧ survives parseYMD wBad = false := by
  have h := C1_cleaned_dates_valid_and_bad_rows_dropped parseYMD wdf
  refine ⟨h.1, ?_, h.2.2.1 wMissing rfl, h.2.2.2 wBad "not-a-date" rfl rfl⟩
  refine h.2.1 (cleanOne parseYMD wGood) ?_
  rw [h.1]
  decide


theorem mem_firstKeys {α : Type} [DecidableEq α] (xs : List α) (k : α) :
    k ∈ firstKeys xs ↔ k ∈ xs := by
  induction xs with
  | nil => simp [firstKeys]
  | cons x xs ih =>
    rw [firstKeys]
    by_cases hk : k = x
    · simp [hk]
    · simp only [List.mem_cons, hk, false_or]
      rw [List.mem_filter]
      simp [ih, hk]

theorem nodup_firstKeys {α : Type} [DecidableEq α] (xs : List α) :
    (firstKeys xs).Nodup := by
  induction xs with
  | nil => simp [firstKeys]
  | cons x xs ih =>
    rw [firstKeys]
    refine List.nodup_cons.mpr ⟨?_, ih.filter _⟩
    simp [List.mem_filter]

theorem countPairs_map_fst {α : Type} [DecidableEq α] (xs : List α) :
    (countPairs xs).map Prod.fst = firstKeys xs := by
  rw [countPairs, List.map_map]
  exact List.map_id _

theorem mem_countPairs {α : Type} [DecidableEq α] (xs : List α) (p : α × Nat) :
    p ∈ countPairs xs ↔ p.1 ∈ xs ∧ p.2 = xs.count p.1 := by
  simp only [countPairs, List.mem_map]
  constructor
  · rintro ⟨k, hk, rfl⟩
    exact ⟨(mem_firstKeys xs k).mp hk, rfl⟩
  · rintro ⟨h1, h2⟩
    refine ⟨p.1, (mem_firstKeys xs p.1).mpr h1, ?_⟩
    obtain ⟨a, b⟩ := p
    simp_all

theorem value_counts_perm {α : Type} [DecidableEq α] (xs : List α) :
    (value_counts xs).Perm (countPairs xs) :=
  List.perm_insertionSort _ _

theorem mem_value_counts {α : Type} [DecidableEq α] (xs : List α) (p : α × Nat) :
    p ∈ value_counts xs ↔ p.1 ∈ xs ∧ p.2 = xs.count p.1 := by
  rw [value_counts, List.mem_insertionSort, mem_countPairs]

theorem nodup_value_counts_keys {α : Type} [DecidableEq α] (xs : List α) :
    ((value_counts xs).map Prod.fst).Nodup := by
  have hperm : ((value_counts xs).map Prod.fst).Perm ((countPairs xs).map Prod.fst) :=
    (value_counts_perm xs).map Prod.fst
  rw [hperm.nodup_iff, countPairs_map_fst]
  exact nodup_firstKeys xs

theorem sorted_value_counts {α : Type} [DecidableEq α] (xs : List α) :
    (value_counts xs).Pairwise cntDesc :=
  List.sorted_insertionSort cntDesc (countPairs xs)

/-- C2: filtering by the year interval keeps exactly the records whose
(present) `year` lies between `startYear` and `endYear` inclusive, and the
filtered view is a sublist of the dataset — the records appear in their
original source order. -/
theorem C2_filtered_view_exact_and_order_preserving
    (df : List Row) (startYear endYear : Int) :
    (df_filtered df startYear endYear).Sublist df
      ∧ ∀ r : Row, r ∈ df_filtered df startYear endYear ↔
          r ∈ df ∧ ∃ y : Int, r.year = some y ∧ startYear ≤ y ∧ y ≤ endYear := by
  refine ⟨List.filter_sublist df, fun r => ?_⟩
  rw [df_filtered, List.mem_filter]
  cases hy : r.year with
  | none => simp [hy]
  | some y => simp [hy]

theorem mem_year_counts (df : List Row) (p : Int × Nat) :
    p ∈ year_counts df ↔ p.1 ∈ yearColumn df ∧ p.2 = (yearColumn df).count p.1 := by
  rw [year_counts, List.mem_insertionSort, mem_value_counts]

theorem nodup_year_counts_keys (df : List Row) :
    ((year_counts df).map Prod.fst).Nodup := by
  have hperm : ((year_counts df).map Prod.fst).Perm
      ((value_counts (yearColumn df)).map Prod.fst) :=
    (List.perm_insertionSort keyAsc _).map Prod.fst
  rw [hperm.nodup_iff]
  exact nodup_value_counts_keys (yearColumn df)

/-- C4: the top-journals aggregate is the 10-entry prefix of the journal
counts sorted descending; tied counts keep the first-appearance order of
their keys (a tied pair adjacent in the counting table stays in that order
in the sorted counts); a raw record with a missing `journal` is cleaned to
the placeholder `"Unknown Journal"`, and every journal present in the
filtered view is counted with its multiplicity. -/
theorem C4_top_journals_spec (df : List Row) (parse : String → Option Date) :
    (top_journals df).length ≤ 10
      ∧ top_journals df = (value_counts (journalColumn df)).take 10
      ∧ (top_journals df).Pairwise (fun p q => q.2 ≤ p.2)
      ∧ (∀ p q : String × Nat, p.2 = q.2 →
          [p, q].Sublist (countPairs (journalColumn df)) →
          [p, q].Sublist (value_counts (journalColumn df)))
      ∧ (∀ r : Row, r.journal = none →
          (cleanOne parse r).journal = some "Unknown Journal")
      ∧ (∀ j ∈ journalColumn df,
          (j, (journalColumn df).count j) ∈ value_counts (journalColumn df)) := by
  refine ⟨List.length_take_le 10 _, rfl, ?_, ?_, ?_, ?_⟩
  · exact (sorted_value_counts (journalColumn df)).sublist (List.take_sublist 10 _)
  · intro p q hpq hsub
    exact List.pair_sublist_insertionSort (le_of_eq hpq.symm) hsub
  · intro r hj
    simp [cleanOne, fillna_abstract, fillna_journal, hj]
  · intro j hj
    exact (mem_value_counts _ _).mpr ⟨hj, rfl⟩

/-- Witness for C4: the five-row scenario table; `"Lancet"` and
`"Nature"` are tied at two papers each and keep first-seen order. -/
theorem C4_witness :
    (top_journals scdf).length ≤ 10
      ∧ (cleanOne parseYMD wGood).journal = some "Unknown Journal"
      ∧ [("Lancet", 2), ("Nature", 2)].Sublist (value_counts (journalColumn scdf))
      ∧ ("Lancet", (journalColumn scdf).count "Lancet")
          ∈ value_counts (journalColumn scdf) := by
  have h := C4_top_journals_spec scdf parseYMD
  exact ⟨h.1, h.2.2.2.2.1 wGood rfl,
    h.2.2.2.1 ("Lancet", 2) ("Nature", 2) rfl (by decide),
    h.2.2.2.2.2 "Lancet" (by decide)⟩

/-- C5: the yearly-counts aggregate has one entry per year observed in the
view (no other keys, no duplicate keys, every observed year present with
its record count), is ordered strictly ascending by year, and on the
five-record scenario with years 2019–2021 and interval (2020, 2021) the
filtered view has 4 records with counts 2020 ↦ 2, 2021 ↦ 2. -/
theorem C5_year_counts_complete_and_ascending (df : List Row) :
    (year_counts df).Pairwise (fun p q => p.1 < q.1)
      ∧ ((year_counts df).map Prod.fst).Nodup
      ∧ (∀ p ∈ year_counts df, p.1 ∈ yearColumn df ∧ p.2 = (yearColumn df).count p.1)
      ∧ (∀ y ∈ yearColumn df, (y, (yearColumn df).count y) ∈ year_counts df)
      ∧ (df_filtered scdf 2020 2021).length = 4
      ∧ year_counts (df_filtered scdf 2020 2021) = [(2020, 2), (2021, 2)] := by
  refine ⟨?_, nodup_year_counts_keys df, ?_, ?_, by decide, by decide⟩
  · have hsorted : (year_counts df).Pairwise keyAsc :=
      List.sorted_insertionSort keyAsc (value_counts (yearColumn df))
    have hne : (year_counts df).Pairwise (fun p q : Int × Nat => p.1 ≠ q.1) :=
      (List.pairwise_map.mp (nodup_year_counts_keys df))
    exact (hsorted.and hne).imp fun h => lt_of_le_of_ne h.1 h.2
  · intro p hp
    exact (mem_year_counts df p).mp hp
  · intro y hy
    exact (mem_year_counts df (y, _)).mpr ⟨hy, rfl⟩

/-- Witness for C5, applying the theorem at the scenario table. -/
theorem C5_witness :
    (year_counts scdf).Pairwise (fun p q => p.1 < q.1)
      ∧ ((2020 : Int), (yearColumn scdf).count 2020) ∈ year_counts scdf
      ∧ (df_filtered scdf 2020 2021).length = 4
      ∧ year_counts (df_filtered scdf 2020 2021) = [(2020, 2), (2021, 2)] := by
  have h := C5_year_counts_complete_and_ascending scdf
  exact ⟨h.1, h.2.2.2.1 2020 (by decide), h.2.2.2.2.1, h.2.2.2.2.2⟩

/-- C3: when the CSV is missing, `load_and_prepare_data` shows the error
notice and returns an empty DataFrame, and the script reaches `st.stop()`:
the session halts without crashing and nothing after the guard (filter,
aggregates, charts, sample) is rendered. -/
theorem C3_missing_source_reports_error_and_halts
    (parse : String → Option Date) (stopBase : List String)
    (choice : Option (Int × Int)) :
    load_and_prepare_data parse none = { data := [], errorShown := true }
      ∧ app_script parse stopBase none choice = some Session.halted :=
  ⟨rfl, rfl⟩

theorem mem_word_frequencies_keys (stop : List String) (text : String)
    (p : String × Nat) (hp : p ∈ word_frequencies stop text) :
    p.1 ∉ stop.map lowerStr := by
  have hp1 : p.1 ∈ ((tokenize text).map lowerStr).filter
      (fun w => !(stop.map lowerStr).contains w) :=
    ((mem_countPairs _ p).mp (by simpa [word_frequencies] using hp)).1
  have h2 := (List.mem_filter.mp hp1).2
  simpa using h2

/-- C6: the word-cloud frequency table assigns zero occurrences to every
member of the custom stop-word set, matched case-insensitively (keys are
lowercased tokens, so a capitalized stop word in a title is removed as
well), and the thirteen domain-specific words are all in the set. -/
theorem C6_stopwords_have_zero_frequency
    (base : List String) (text : String) (w : String)
    (h : lowerStr w ∈ (custom_stopwords base).map lowerStr) :
    (∀ p ∈ word_frequencies (custom_stopwords base) text, p.1 ≠ lowerStr w)
      ∧ freqOf (word_frequencies (custom_stopwords base) text) (lowerStr w) = 0
      ∧ ∀ e ∈ extraStopwords, e ∈ custom_stopwords base := by
  have hkey : ∀ p ∈ word_frequencies (custom_stopwords base) text, p.1 ≠ lowerStr w := by
    intro p hp heq
    exact mem_word_frequencies_keys _ _ p hp (heq ▸ h)
  refine ⟨hkey, ?_, fun e he => List.mem_append_right base he⟩
  rw [freqOf, List.filter_eq_nil_iff.mpr ?_]
  · rfl
  · intro p hp
    simpa using hkey p hp

/-- Witness for C6: the capitalized stop word `"COVID"` gets frequency 0. -/
theorem C6_witness :
    lowerStr "COVID" = "covid"
      ∧ freqOf (word_frequencies (custom_stopwords [])
          "COVID Vaccine Results") (lowerStr "COVID") = 0 := by
  have h := C6_stopwords_have_zero_frequency [] "COVID Vaccine Results" "COVID" (by decide)
  exact ⟨by decide, h.2.1⟩

theorem titleColumn_filter_isSome (df : List Row) :
    titleColumn (df.filter fun r => r.title.isSome) = titleColumn df := by
  induction df with
  | nil => rfl
  | cons r df ih =>
    cases ht : r.title with
    | none =>
      simpa [titleColumn, List.filter_cons, ht, List.filterMap_cons] using ih
    | some t =>
      simpa [titleColumn, List.filter_cons, ht, List.filterMap_cons] using ih

/-- C7: the word-cloud corpus is built from the non-missing titles only
(rows with a missing title contribute nothing), and when the concatenated
corpus is empty the page shows the "no titles" warning and attempts no
layout, while the year chart, journal chart and sample table are computed
regardless. -/
theorem C7_missing_titles_skipped_and_empty_corpus_is_noticed
    (stopBase : List String) (df : List Row) (yr : Int × Int) :
    title_text (df_filtered df yr.1 yr.2)
        = title_text ((df_filtered df yr.1 yr.2).filter fun r => r.title.isSome)
      ∧ (title_text (df_filtered df yr.1 yr.2) = "" →
          (render stopBase df yr).cloud = none
            ∧ (render stopBase df yr).noTitlesWarning = true)
      ∧ (title_text (df_filtered df yr.1 yr.2) ≠ "" →
          (render stopBase df yr).cloud
              = some (word_frequencies (custom_stopwords stopBase)
                  (title_text (df_filtered df yr.1 yr.2)))
            ∧ (render stopBase df yr).noTitlesWarning = false)
      ∧ (render stopBase df yr).yearChart = year_counts (df_filtered df yr.1 yr.2)
      ∧ (render stopBase df yr).journalChart = top_journals (df_filtered df yr.1 yr.2)
      ∧ (render stopBase df yr).sample
          = ((df_filtered df yr.1 yr.2).map sampleColumns).take 10 := by
  refine ⟨?_, ?_, ?_, rfl, rfl, rfl⟩
  · rw [title_text, title_text, titleColumn_filter_isSome]
  · intro h
    simp [render, h]
  · intro h
    simp [render, h]

/-- Witness for C7: one row in range whose title is missing — the corpus
is empty, the warning branch is taken, and the sample still shows the row. -/
theorem C7_witness :
    (render [] [srow 2020 "Nature" none] (2020, 2020)).cloud = none
      ∧ (render [] [srow 2020 "Nature" none] (2020, 2020)).noTitlesWarning = true
      ∧ (render [] [srow 2020 "Nature" none] (2020, 2020)).sample
          = [sampleColumns (srow 2020 "Nature" none)] := by
  have h := C7_missing_titles_skipped_and_empty_corpus_is_noticed
    [] [srow 2020 "Nature" none] (2020, 2020)
  obtain ⟨hc, hw⟩ := h.2.1 (by decide)
  exact ⟨hc, hw, by decide⟩

theorem yearColumn_ne_nil_of_data_ne_nil (parse : String → Option Date)
    (source : Option (List Row))
    (h : (load_and_prepare_data parse source).data ≠ []) :
    yearColumn (load_and_prepare_data parse source).data ≠ [] := by
  cases source with
  | none => simp [load_and_prepare_data] at h
  | some df =>
    obtain ⟨r, hr⟩ := List.exists_mem_of_ne_nil _ h
    obtain ⟨d, _, hyr, _, _⟩ := mem_cleanPipeline_isCleaned parse df r hr
    exact List.ne_nil_of_mem (List.mem_filterMap.mpr ⟨r, hr, by rw [hyr]⟩)

theorem min_le_max_of_ne_nil (l : List Int) (h : l ≠ []) :
    ∃ mn mx : Int, l.min? = some mn ∧ l.max? = some mx ∧ mn ≤ mx := by
  cases hmn : l.min? with
  | none => exact absurd (List.min?_eq_none_iff.mp hmn) h
  | some mn =>
    cases hmx : l.max? with
    | none => exact absurd (List.max?_eq_none_iff.mp hmx) h
    | some mx =>
      refine ⟨mn, mx, rfl, rfl, ?_⟩
      have hmem : mn ∈ l := List.min?_mem (fun a b => min_choice a b) hmn
      have hub : ∀ b ∈ l, b ≤ mx :=
        (List.max?_le_iff (fun a b c => max_le_iff) hmx).mp le_rfl
      exact hub mn hmem

/-- C10: the script never crashes: it either halts at the empty-dataset
guard or renders a page; whenever the dataset survives the guard the
`year` column is non-empty, so `min`/`max` exist and satisfy
`min_year ≤ max_year`. -/
theorem C10_bounds_computed_only_after_guard
    (parse : String → Option Date) (stopBase : List String)
    (source : Option (List Row)) (choice : Option (Int × Int)) :
    (∃ s : Session, app_script parse stopBase source choice = some s)
      ∧ ((load_and_prepare_data parse source).data ≠ [] →
          ∃ mn mx : Int,
            (yearColumn (load_and_prepare_data parse source).data).min? = some mn
              ∧ (yearColumn (load_and_prepare_data parse source).data).max? = some mx
              ∧ mn ≤ mx) := by
  by_cases hd : (load_and_prepare_data parse source).data = []
  · refine ⟨⟨Session.halted, ?_⟩, fun hne => absurd hd hne⟩
    simp [app_script, hd]
  · obtain ⟨mn, mx, hmn, hmx, hle⟩ :=
      min_le_max_of_ne_nil _ (yearColumn_ne_nil_of_data_ne_nil parse source hd)
    refine ⟨?_, fun _ => ⟨mn, mx, hmn, hmx, hle⟩⟩
    refine ⟨Session.page (render stopBase (load_and_prepare_data parse source).data
      (slider mn mx choice)), ?_⟩
    simp [app_script, hd, hmn, hmx]

/-- Witness for C10, at the three-row table whose cleaning keeps one row. -/
theorem C10_witness :
    (∃ s : Session, app_script parseYMD [] (some wdf) none = some s)
      ∧ ∃ mn mx : Int,
          (yearColumn (load_and_prepare_data parseYMD (some wdf)).data).min? = some mn
            ∧ (yearColumn (load_and_prepare_data parseYMD (some wdf)).data).max? = some mx
            ∧ mn ≤ mx := by
  have h := C10_bounds_computed_only_after_guard parseYMD [] (some wdf) none
  exact ⟨h.1, h.2 (by decide)⟩

/-- C9: on a dataset that passes the non-empty guard, the slider built
from the data bounds yields exactly the default `(2020, max_year)` when
the user has made no choice, and clamps both ends of any user choice into
`[min_year, max_year]`. -/
theorem C9_slider_clamped_with_default
    (parse : String → Option Date) (source : Option (List Row))
    (mn mx a b : Int)
    (hne : (load_and_prepare_data parse source).data ≠ [])
    (hmn : (yearColumn (load_and_prepare_data parse source).data).min? = some mn)
    (hmx : (yearColumn (load_and_prepare_data parse source).data).max? = some mx) :
    slider mn mx none = (2020, mx)
      ∧ mn ≤ (slider mn mx (some (a, b))).1 ∧ (slider mn mx (some (a, b))).1 ≤ mx
      ∧ mn ≤ (slider mn mx (some (a, b))).2 ∧ (slider mn mx (some (a, b))).2 ≤ mx := by
  have hle : mn ≤ mx := by
    obtain ⟨mn', mx', hmn', hmx', hle'⟩ :=
      min_le_max_of_ne_nil _ (yearColumn_ne_nil_of_data_ne_nil parse source hne)
    rw [hmn] at hmn'
    rw [hmx] at hmx'
    cases hmn'
    cases hmx'
    exact hle'
  refine ⟨rfl, le_max_left _ _, max_le hle (min_le_right _ _),
    le_max_left _ _, max_le hle (min_le_right _ _)⟩

/-- Witness for C9: the surviving row is from 2020, so both bounds are
2020; the default is `(2020, 2020)` and the choice `(1999, 3000)` clamps. -/
theorem C9_witness :
    slider 2020 2020 none = ((2020 : Int), (2020 : Int))
      ∧ (2020 : Int) ≤ (slider 2020 2020 (some (1999, 3000))).1
      ∧ (slider 2020 2020 (some (1999, 3000))).1 ≤ 2020
      ∧ (2020 : Int) ≤ (slider 2020 2020 (some (1999, 3000))).2
      ∧ (slider 2020 2020 (some (1999, 3000))).2 ≤ 2020 :=
  C9_slider_clamped_with_default parseYMD (some wdf) 2020 2020 1999 3000
    (by decide) (by decide) (by decide)

end Cord
